import Mathlib

/-!
Shallow embedding of the interactive-voice-api-poc server (src/main.py) and
its demo client (src/client.py).

The server is a FastAPI application with three routes:
a plain HTTP page at "/", a plain HTTP GET handler at "/ws" that raises
HTTPException(400), and the WebSocket handler `websocket_endpoint` at "/ws".
The WebSocket handler accepts the connection, sends a fixed welcome text
frame, then loops: it awaits `receive_bytes`, and for each received binary
payload sends back the text frame "Received {N} bytes of audio data." where
N is the payload length.  A `WebSocketDisconnect` ends the loop silently;
any other exception is answered with "An error occurred: {message}" followed
by a close with code 1011 and reason "Internal server error".

The handler is modelled as a pure function from the finite trace of events
observed on one connection (binary frames, text frames, a graceful
disconnect, or an exception raised while handling) to the list of outputs
the server writes on that connection, in order.
-/

namespace VoicePoc

/-- A byte of a binary frame payload.  Only lengths reach the server's
output, but payloads are kept as byte lists, faithful to the `bytes` value
`receive_bytes` returns in src/main.py line 72. -/
abbrev Byte := Nat

/-- One event observed by the receive loop of `websocket_endpoint` on an open
connection:
a binary (audio) frame with its payload, a text frame with its content, a
graceful client disconnect (Starlette raises `WebSocketDisconnect` from
`receive_bytes`), or any other exception raised while handling the
connection, carried with its message `str(e)`. -/
inductive SessionEvent where
  | binary (payload : List Byte)
  | text (s : String)
  | disconnect
  | raiseError (msg : String)
deriving DecidableEq, Repr

/-- One write the server performs on the connection: a text frame
(`websocket.send_text`) or a protocol-level close (`websocket.close`) with
its code and reason. -/
inductive ServerOutput where
  | sendText (s : String)
  | close (code : Nat) (reason : String)
deriving DecidableEq, Repr

/-- The welcome text frame sent right after `accept`, src/main.py line 67. -/
def welcome_message : String :=
  "Connection established. Send audio data as binary messages."

/-- The acknowledgment text for a chunk of `chunk_size` bytes: the f-string
of src/main.py line 77. -/
def response_msg (chunk_size : Nat) : String :=
  "Received " ++ toString chunk_size ++ " bytes of audio data."

/-- The error text built in the generic exception branch, src/main.py
line 86. -/
def error_msg (msg : String) : String :=
  "An error occurred: " ++ msg

/-- Starlette's `WebSocket.receive_bytes` returns `message["bytes"]` of the
received ASGI message.  A text frame delivers a message without a usable
`"bytes"` entry, so the call raises (a `KeyError`, whose `str` is `'bytes'`);
src/main.py has no handler for text frames, so this exception reaches the
generic `except Exception` branch of the loop.  The claims depend only on
the exception being raised there, not on this exact message text. -/
def receiveBytesKeyError : String := "'bytes'"

/-- The `try: while True: ...` receive loop of `websocket_endpoint`,
src/main.py lines 69-88, over the finite trace of events observed on the
connection.  A binary frame is acknowledged with `response_msg` and the loop
continues; a text frame makes `receive_bytes` raise, which the
`except Exception` branch turns into an error frame and a close with code
1011; a disconnect is caught by `except WebSocketDisconnect` and only
logged; any other exception is handled by the same `except Exception`
branch.  An exhausted trace is a connection still open, the loop blocked in
`receive_bytes`. -/
def runLoop : List SessionEvent → List ServerOutput
  | [] => []
  | SessionEvent.binary payload :: rest =>
      ServerOutput.sendText (response_msg payload.length) :: runLoop rest
  | SessionEvent.text _ :: _ =>
      [ServerOutput.sendText (error_msg receiveBytesKeyError),
       ServerOutput.close 1011 "Internal server error"]
  | SessionEvent.disconnect :: _ => []
  | SessionEvent.raiseError msg :: _ =>
      [ServerOutput.sendText (error_msg msg),
       ServerOutput.close 1011 "Internal server error"]

/-- The whole WebSocket handler, src/main.py lines 54-88: `accept`, the
welcome frame, then the receive loop.  The handler returns (no exception
escapes it): its observable behaviour on one connection is this output
list. -/
def websocket_endpoint (events : List SessionEvent) : List ServerOutput :=
  ServerOutput.sendText welcome_message :: runLoop events

/-- The text-frame contents of an output trace, in order: every
`send_text` the server performed. -/
def sentTexts (outs : List ServerOutput) : List String :=
  outs.filterMap fun o =>
    match o with
    | ServerOutput.sendText s => some s
    | _ => none

/-- The first binary chunk the demo client sends, src/client.py line 12. -/
def client_first_chunk : List Byte := [0x00, 0x01, 0x02, 0x03, 0x04]

/-- The second binary chunk the demo client sends, src/client.py line 17. -/
def client_second_chunk : List Byte := [0x10, 0x20, 0x30]

/-- Unfolding equation of the loop on a binary frame: it is acknowledged
with its byte count and the loop continues on the rest of the trace. -/
theorem runLoop_binary (payload : List Byte) (rest : List SessionEvent) :
    runLoop (SessionEvent.binary payload :: rest) =
      ServerOutput.sendText (response_msg payload.length) :: runLoop rest := rfl

/-- An all-binary trace produces exactly the acknowledgments, in order. -/
theorem runLoop_map_binary (frames : List (List Byte)) :
    runLoop (frames.map SessionEvent.binary) =
      frames.map fun f => ServerOutput.sendText (response_msg f.length) := by
  induction frames with
  | nil => rfl
  | cons f fs ih => simp [runLoop, ih]

/-- The text frames of an all-sendText trace are its contents. -/
theorem sentTexts_map_sendText (l : List String) :
    sentTexts (l.map ServerOutput.sendText) = l := by
  induction l with
  | nil => rfl
  | cons s t ih => simp [sentTexts] at ih ⊢; exact ih

/-- C1 counterexample: the two acknowledgments for two distinct 5-byte frames
are the identical string "Received 5 bytes of audio data.", so no assignment
of a sequence number readable from an acknowledgment can give the first
acknowledgment number 1 and the second number 2: the acknowledgment does not
carry a sequence number. -/
theorem C1_ack_carries_no_sequence_number :
    ¬ ∃ seqOf : String → Nat,
      ∀ i s,
        (sentTexts (runLoop
            ([[0, 0, 0, 0, 0], [9, 8, 7, 6, 5]].map SessionEvent.binary))).get? i =
          some s → seqOf s = i + 1 := by
  rintro ⟨f, hf⟩
  have h0 := hf 0 "Received 5 bytes of audio data." (by rfl)
  have h1 := hf 1 "Received 5 bytes of audio data." (by rfl)
  omega

/-- C1 (amended): for every sequence of N binary frames on one connection the
server sends exactly N acknowledgment text frames, in the order the frames
were received, the k-th reporting the byte count of the k-th frame; the
sequence number of a chunk is its position in this order but is not carried
in the acknowledgment's content. -/
theorem C1_acks_exact_in_order (frames : List (List Byte)) :
    sentTexts (runLoop (frames.map SessionEvent.binary)) =
      frames.map fun f => response_msg f.length := by
  rw [runLoop_map_binary,
      show (fun f : List Byte => ServerOutput.sendText (response_msg f.length)) =
        ServerOutput.sendText ∘ fun f : List Byte => response_msg f.length from rfl,
      ← List.map_map, sentTexts_map_sendText]

/-- C2: every binary frame of payload length N at the head of the remaining
trace is answered with exactly the text "Received {N} bytes of audio data."
and the loop continues; and the demo client's session (5 bytes then 3 bytes)
yields exactly the welcome frame, "Received 5 bytes of audio data." and
"Received 3 bytes of audio data.". -/
theorem C2_per_frame_ack_text :
    (∀ (payload : List Byte) (rest : List SessionEvent),
        runLoop (SessionEvent.binary payload :: rest) =
          ServerOutput.sendText
              ("Received " ++ toString payload.length ++ " bytes of audio data.") ::
            runLoop rest) ∧
    websocket_endpoint
        [SessionEvent.binary client_first_chunk,
         SessionEvent.binary client_second_chunk] =
      [ServerOutput.sendText welcome_message,
       ServerOutput.sendText "Received 5 bytes of audio data.",
       ServerOutput.sendText "Received 3 bytes of audio data."] :=
  ⟨fun _ _ => rfl, rfl⟩

/-- C3: on every connection, whatever the client later does, the server's
first write is the text frame "Connection established. Send audio data as
binary messages.", sent before any client frame is read. -/
theorem C3_welcome_sent_first (events : List SessionEvent) :
    (websocket_endpoint events).head? =
      some (ServerOutput.sendText
        "Connection established. Send audio data as binary messages.") := rfl

/-- C4 counterexample: a binary frame of 1048577 bytes (one byte over the
spec's example default maximum of 1 MiB) is not rejected: the server
acknowledges it like any other frame and keeps processing later frames, and
no close is sent. -/
theorem C4_oversized_frame_not_rejected :
    runLoop [SessionEvent.binary (List.replicate 1048577 0), SessionEvent.binary [1]] =
      [ServerOutput.sendText "Received 1048577 bytes of audio data.",
       ServerOutput.sendText "Received 1 bytes of audio data."] := by
  rw [runLoop_binary, runLoop_binary, List.length_replicate]
  rfl

/-- C4 (amended): the handler enforces no maximum chunk size: a binary frame
whose length exceeds any candidate bound is still acknowledged with its byte
count and the loop continues, with no rejection and no close. -/
theorem C4_no_max_chunk_size (maxSize : Nat) (payload : List Byte)
    (hover : maxSize < payload.length) (rest : List SessionEvent) :
    runLoop (SessionEvent.binary payload :: rest) =
      ServerOutput.sendText (response_msg payload.length) :: runLoop rest :=
  runLoop_binary payload rest

/-- C4 witness: a 3-byte frame exceeds the bound 1 and is acknowledged. -/
theorem C4_no_max_chunk_size_witness :
    runLoop [SessionEvent.binary [0, 1, 2]] =
      ServerOutput.sendText (response_msg 3) :: runLoop [] :=
  C4_no_max_chunk_size 1 [0, 1, 2] (by decide) []

/-- C5: an exception raised while handling the connection (other than the
disconnect exception) makes the server send the text frame
"An error occurred: {message}" and then close with code 1011 and reason
"Internal server error", in that order, and the loop ends. -/
theorem C5_error_frame_then_close_1011 (msg : String) (rest : List SessionEvent) :
    runLoop (SessionEvent.raiseError msg :: rest) =
      [ServerOutput.sendText ("An error occurred: " ++ msg),
       ServerOutput.close 1011 "Internal server error"] := rfl

/-- C6 counterexample: a text frame is not ignored: on the session
[text "ping", binary [1]] the server sends an error frame and a close with
code 1011, and the following binary frame is never acknowledged, so a
control frame does send an error frame, does close the connection and does
terminate the receive loop. -/
theorem C6_text_frame_not_ignored :
    websocket_endpoint [SessionEvent.text "ping", SessionEvent.binary [1]] =
      [ServerOutput.sendText welcome_message,
       ServerOutput.sendText (error_msg receiveBytesKeyError),
       ServerOutput.close 1011 "Internal server error"] ∧
    ServerOutput.close 1011 "Internal server error" ∈
      websocket_endpoint [SessionEvent.text "ping", SessionEvent.binary [1]] := by
  exact ⟨rfl, by decide⟩

/-- C6 (amended): a text frame from the client makes `receive_bytes` raise,
so the server answers any text frame with an error text frame followed by a
close with code 1011 "Internal server error", terminating the receive loop:
whatever follows the text frame is never processed. -/
theorem C6_text_frame_errors_and_closes (s : String) (rest : List SessionEvent) :
    runLoop (SessionEvent.text s :: rest) =
      [ServerOutput.sendText (error_msg receiveBytesKeyError),
       ServerOutput.close 1011 "Internal server error"] := rfl

/-- Helper for C7: the loop output of an all-binary trace cut off by a
disconnect is exactly the acknowledgments of the frames before the
disconnect. -/
theorem runLoop_disconnect (pre : List (List Byte)) (rest : List SessionEvent) :
    runLoop (pre.map SessionEvent.binary ++ SessionEvent.disconnect :: rest) =
      pre.map fun p => ServerOutput.sendText (response_msg p.length) := by
  induction pre with
  | nil => rfl
  | cons p ps ih => simp [runLoop, ih]

/-- C7: after a graceful client disconnect the server writes nothing more:
the connection's outputs are the welcome frame and the acknowledgments of
the frames received before the disconnect — no further text frame and no
close frame — and the handler returns (the disconnect exception is caught,
none propagates). -/
theorem C7_no_writes_after_disconnect (pre : List (List Byte))
    (rest : List SessionEvent) :
    websocket_endpoint (pre.map SessionEvent.binary ++
        SessionEvent.disconnect :: rest) =
      ServerOutput.sendText welcome_message ::
        pre.map fun p => ServerOutput.sendText (response_msg p.length) := by
  show ServerOutput.sendText welcome_message :: runLoop _ = _
  rw [runLoop_disconnect]

/-- C9: a zero-length binary frame is accepted, acknowledged with
"Received 0 bytes of audio data.", and the loop continues on the rest of the
trace with the session still active. -/
theorem C9_empty_frame_acknowledged (rest : List SessionEvent) :
    runLoop (SessionEvent.binary [] :: rest) =
      ServerOutput.sendText "Received 0 bytes of audio data." :: runLoop rest := rfl

/-- C10: the server's outputs depend only on the lengths of the binary
frames, never on their contents: two all-binary sessions whose frames have
pointwise equal lengths produce identical output traces. -/
theorem C10_ack_depends_only_on_length (frames1 frames2 : List (List Byte))
    (h : frames1.map List.length = frames2.map List.length) :
    websocket_endpoint (frames1.map SessionEvent.binary) =
      websocket_endpoint (frames2.map SessionEvent.binary) := by
  show ServerOutput.sendText welcome_message :: runLoop _ =
    ServerOutput.sendText welcome_message :: runLoop _
  rw [runLoop_map_binary, runLoop_map_binary,
      show (fun f : List Byte => ServerOutput.sendText (response_msg f.length)) =
        (fun n => ServerOutput.sendText (response_msg n)) ∘ List.length from rfl,
      ← List.map_map, ← List.map_map, h]

/-- C10 witness: frames [0,0,0] and [255,7,42] have equal length and produce
identical output traces. -/
theorem C10_ack_depends_only_on_length_witness :
    websocket_endpoint ([[0, 0, 0]].map SessionEvent.binary) =
      websocket_endpoint ([[255, 7, 42]].map SessionEvent.binary) :=
  C10_ack_depends_only_on_length [[0, 0, 0]] [[255, 7, 42]] rfl

end VoicePoc
